import Mathlib

/-!
Shallow embedding of `libcrio` (src/lib.rs), a Rust wrapper around the
`crictl` container-runtime CLI.

Modelling conventions:
* JSON values (`serde_json::Value`) become the inductive `Json`; numbers are
  modelled as `Int` (no claim depends on numeric representation).
* The child process is external I/O: an invocation's observable outcome is a
  `SpawnResult` — a spawn/wait failure message, or the captured stdout/stderr
  byte buffers together with the exit status.  `run_command_text` is the
  source's control flow over that outcome.
* `Read::read_to_string` on a byte slice (Rust std) succeeds exactly on valid
  UTF-8 and otherwise yields an `io::Error` displaying
  "stream did not contain valid UTF-8"; `utf8Decode` models that validation.
* `serde_json::from_slice` is an external dependency; the operations are
  parameterised by `parse : String → Except String Json` standing for it
  (the source feeds it the bytes of the already-validated UTF-8 stdout text).
* Rust's `{:?}` formatting of `Vec<&str>` becomes `fmtArgs`/`debugStr`
  (quote each element, escape backslash, quote and common control characters,
  comma-space separated inside brackets).
-/

namespace LibCrio

/-- Model of `serde_json::Value`. -/
inductive Json where
  | null : Json
  | bool (b : Bool) : Json
  | num (n : Int) : Json
  | str (s : String) : Json
  | arr (elems : List Json) : Json
  | obj (fields : List (String × Json)) : Json

/-- Model of `value[key]` (`Index<&str> for Value`): field of an object,
`Null` when the key is missing or the value is not an object. -/
def Json.index (j : Json) (key : String) : Json :=
  match j with
  | Json.obj fields => (fields.lookup key).getD Json.null
  | _ => Json.null

/-- Model of `Value::get(i)` with a `usize` index: `Some` element of an array
when in range, `None` otherwise. -/
def Json.get (j : Json) (i : Nat) : Option Json :=
  match j with
  | Json.arr elems => elems.get? i
  | _ => none

/-- Model of `Value::as_array`. -/
def Json.as_array (j : Json) : Option (List Json) :=
  match j with
  | Json.arr elems => some elems
  | _ => none

/-- Model of `Value::as_str`. -/
def Json.as_str (j : Json) : Option String :=
  match j with
  | Json.str s => some s
  | _ => none

/-- Model of `ImageCommand` (which crictl list-images sub-command to run). -/
inductive ImageCommand where
  | img : ImageCommand
  | images : ImageCommand

/-- The `{:?}` (derived Debug) name of an `ImageCommand` variant. -/
def ImageCommand.debugName : ImageCommand → String
  | ImageCommand.img => "Img"
  | ImageCommand.images => "Images"

/-- Model of Rust's `str::to_lowercase` as used here: lowercase the string
character by character. -/
def lowerStr (s : String) : String :=
  String.mk (s.data.map Char.toLower)

/-- Model of `Display for ImageCommand`: the Debug name written through
`LowercaseFormatter`, i.e. lowercased character by character. -/
def ImageCommand.render (c : ImageCommand) : String :=
  lowerStr c.debugName

/-- Model of `ImageCommand::from_str`: lowercase the input and match the two
variant names; any other input is the unit error `()`. -/
def ImageCommand.from_str (input : String) : Except Unit ImageCommand :=
  match lowerStr input with
  | "img" => Except.ok ImageCommand.img
  | "images" => Except.ok ImageCommand.images
  | _ => Except.error ()

/-- Model of the `Cli` configuration struct. -/
structure Cli where
  bin_path : String
  config_path : Option String
  image_command : ImageCommand

/-- Model of `Default for Cli`. -/
def Cli.mkDefault : Cli :=
  { bin_path := "/bin:/sbin:/usr/bin:/usr/sbin:/usr/local/bin:/home/kubernetes/bin"
  , config_path := none
  , image_command := ImageCommand.img }

/-- Model of Rust's `str::starts_with(c)` for a single-character pattern:
does the first character equal `c`? -/
def startsWithChar (s : String) (c : Char) : Bool :=
  match s.data with
  | [] => false
  | a :: _ => a == c

/-- Model of `Cli::append_bin_path`: prepend a `:` to the appended segment
unless it already starts with one, then push onto `bin_path`. -/
def Cli.append_bin_path (cli : Cli) (path : String) : Cli :=
  let internal := if !(startsWithChar path ':') then ":" ++ path else path
  { cli with bin_path := cli.bin_path ++ internal }

/-- Rust `Debug` escaping of one character as it appears in `{:?}` of a
string slice (the escapes exercised by this library's argument strings). -/
def debugChar (c : Char) : String :=
  if c = '"' then "\\\""
  else if c = '\\' then "\\\\"
  else if c = '\n' then "\\n"
  else if c = '\t' then "\\t"
  else if c = '\r' then "\\r"
  else String.singleton c

/-- Rust `{:?}` of a string slice: double quotes around the escaped body. -/
def debugStr (s : String) : String :=
  "\"" ++ String.join (s.data.map debugChar) ++ "\""

/-- Rust `{:?}` of a `Vec<&str>`: bracketed, comma-space separated,
each element Debug-quoted. -/
def fmtArgs (args : List String) : String :=
  "[" ++ String.intercalate ", " (args.map debugStr) ++ "]"

/-- Observable outcome of spawning the child process and waiting on it:
either a spawn-stage or wait-stage I/O failure (its displayed message), or
the captured raw stdout/stderr bytes plus the exit status. -/
inductive SpawnResult where
  | spawnErr (msg : String) : SpawnResult
  | waitErr (msg : String) : SpawnResult
  | output (stdout : List Nat) (stderr : List Nat) (status : Int) : SpawnResult

/-- The message displayed by the `io::Error` that
`Read::read_to_string` returns on invalid UTF-8. -/
def utf8ReadErr : String := "stream did not contain valid UTF-8"

/-- Is `b` a UTF-8 continuation byte (`0x80..=0xBF`)? -/
def isCont (b : Nat) : Bool := 0x80 ≤ b && b ≤ 0xBF

/-- Admissible range of the second byte of a multi-byte UTF-8 sequence,
which depends on the lead byte (excludes overlong forms and surrogates),
per the standard UTF-8 validation used by Rust's `str`. -/
def cont1Ok (b c1 : Nat) : Bool :=
  if b = 0xE0 then 0xA0 ≤ c1 && c1 ≤ 0xBF
  else if b = 0xED then 0x80 ≤ c1 && c1 ≤ 0x9F
  else if b = 0xF0 then 0x90 ≤ c1 && c1 ≤ 0xBF
  else if b = 0xF4 then 0x80 ≤ c1 && c1 ≤ 0x8F
  else isCont c1

/-- Standard UTF-8 decoding of a byte list: `some` decoded characters on
valid input, `none` on any invalid sequence. -/
def utf8DecodeChars : List Nat → Option (List Char)
  | [] => some []
  | b :: rest =>
    if b ≤ 0x7F then
      (utf8DecodeChars rest).map (fun cs => Char.ofNat b :: cs)
    else if 0xC2 ≤ b && b ≤ 0xDF then
      match rest with
      | c1 :: rest1 =>
        if isCont c1 then
          (utf8DecodeChars rest1).map
            (fun cs => Char.ofNat ((b - 0xC0) * 0x40 + (c1 - 0x80)) :: cs)
        else none
      | [] => none
    else if 0xE0 ≤ b && b ≤ 0xEF then
      match rest with
      | c1 :: c2 :: rest2 =>
        if cont1Ok b c1 && isCont c2 then
          (utf8DecodeChars rest2).map
            (fun cs =>
              Char.ofNat ((b - 0xE0) * 0x1000 + (c1 - 0x80) * 0x40 + (c2 - 0x80)) :: cs)
        else none
      | _ => none
    else if 0xF0 ≤ b && b ≤ 0xF4 then
      match rest with
      | c1 :: c2 :: c3 :: rest3 =>
        if cont1Ok b c1 && isCont c2 && isCont c3 then
          (utf8DecodeChars rest3).map
            (fun cs =>
              Char.ofNat ((b - 0xF0) * 0x40000 + (c1 - 0x80) * 0x1000
                + (c2 - 0x80) * 0x40 + (c3 - 0x80)) :: cs)
        else none
      | _ => none
    else none

/-- Model of `read_to_string` on a captured byte buffer: the decoded text on
valid UTF-8, `none` (an I/O error) otherwise. -/
def utf8Decode (bs : List Nat) : Option String :=
  (utf8DecodeChars bs).map (fun cs => String.mk cs)

/-- Model of `run_command_text`: spawn/wait failures ("failed to execute
crictl"), then decode stderr ("stderr read error" on invalid UTF-8; "stderr
not empty" when the decoded text is non-empty), then decode stdout ("stdout
error" on invalid UTF-8), otherwise the stdout text.  The exit status is
never inspected (the status check in the source is commented out). -/
def run_command_text (args : List String) (res : SpawnResult) : Except String String :=
  match res with
  | SpawnResult.spawnErr e =>
      Except.error ("failed to execute crictl " ++ fmtArgs args ++ " " ++ e)
  | SpawnResult.waitErr e =>
      Except.error ("failed to execute crictl " ++ fmtArgs args ++ " " ++ e)
  | SpawnResult.output stdout stderr _status =>
    match utf8Decode stderr with
    | none =>
        Except.error ("stderr read error - failed to execute crictl "
          ++ fmtArgs args ++ " " ++ utf8ReadErr)
    | some err_str =>
      if !err_str.isEmpty then
        Except.error ("stderr not empty - failed to execute crictl "
          ++ fmtArgs args ++ " " ++ err_str)
      else
        match utf8Decode stdout with
        | none =>
            Except.error ("stdout error - failed to execute crictl "
              ++ fmtArgs args ++ " " ++ utf8ReadErr)
        | some ok_str => Except.ok ok_str

/-- Model of `slice_to_value`: run the external JSON parser (`serde_json`,
abstracted as `parse`) on the validated stdout text; on failure embed the
argument list and the parser's message. -/
def slice_to_value (parse : String → Except String Json)
    (text : String) (args : List String) : Except String Json :=
  match parse text with
  | Except.ok v => Except.ok v
  | Except.error e =>
      Except.error ("failed to create output from slice for "
        ++ fmtArgs args ++ " " ++ e)

/-- Model of `run_command`: text pipeline then JSON decoding. -/
def run_command (parse : String → Except String Json)
    (args : List String) (res : SpawnResult) : Except String Json :=
  match run_command_text args res with
  | Except.error e => Except.error e
  | Except.ok str_ok => slice_to_value parse str_ok args

/-- Argument vector built by `Cli::pod`. -/
def podArgs (config_path : Option String) (hostname : String) : List String :=
  match config_path with
  | some s => ["-c", s, "pods", "--name", hostname, "-o", "json"]
  | none => ["pods", "--name", hostname, "-o", "json"]

/-- Model of `Cli::pod`: run `crictl pods --name <hostname> -o json`, then
select element 0 of the `items` array. -/
def Cli.pod (parse : String → Except String Json) (cli : Cli)
    (hostname : String) (res : SpawnResult) : Except String Json :=
  match run_command parse (podArgs cli.config_path hostname) res with
  | Except.error e => Except.error e
  | Except.ok pod_list =>
    match (pod_list.index "items").get 0 with
    | some s => Except.ok s
    | none => Except.error "failed to create pod at index 0"

/-- Argument vector built by `Cli::inspect_pod`. -/
def inspectPodArgs (config_path : Option String) (pod_id : String) : List String :=
  match config_path with
  | some s => ["-c", s, "inspectp", pod_id]
  | none => ["inspectp", pod_id]

/-- Model of `Cli::inspect_pod`: `crictl inspectp <pod_id>`, decoded value
returned as-is. -/
def Cli.inspect_pod (parse : String → Except String Json) (cli : Cli)
    (pod_id : String) (res : SpawnResult) : Except String Json :=
  run_command parse (inspectPodArgs cli.config_path pod_id) res

/-- Argument vector built by `Cli::pod_containers`. -/
def podContainersArgs (config_path : Option String) (pod_id : String) : List String :=
  match config_path with
  | some s => ["-c", s, "ps", "-o", "json", "-p", pod_id]
  | none => ["ps", "-o", "json", "-p", pod_id]

/-- Model of `Cli::pod_containers`: `crictl ps -o json -p <pod_id>`, decoded
value returned as-is. -/
def Cli.pod_containers (parse : String → Except String Json) (cli : Cli)
    (pod_id : String) (res : SpawnResult) : Except String Json :=
  run_command parse (podContainersArgs cli.config_path pod_id) res

/-- Argument vector built by `Cli::inspect_container`. -/
def inspectContainerArgs (config_path : Option String) (container_id : String) :
    List String :=
  match config_path with
  | some s => ["-c", s, "inspect", container_id]
  | none => ["inspect", container_id]

/-- Model of `Cli::inspect_container`: `crictl inspect <container_id>`,
decoded value returned as-is. -/
def Cli.inspect_container (parse : String → Except String Json) (cli : Cli)
    (container_id : String) (res : SpawnResult) : Except String Json :=
  run_command parse (inspectContainerArgs cli.config_path container_id) res

/-- Argument vector built by `Cli::image` (the sub-command token is the
rendered `image_command`). -/
def imageArgs (config_path : Option String) (img_cmd : String) : List String :=
  match config_path with
  | some s => ["-c", s, img_cmd, "-o", "json"]
  | none => [img_cmd, "-o", "json"]

/-- One iteration body of the image-matching loop: the record matches when
its `id` string (missing or non-string read as `""` via
`as_str().unwrap_or_default()`) equals the reference, or — only otherwise —
when some entry of its `repoDigests` array (same defaulting) equals it. -/
def matchesImage (line_obj : Json) (image_ref : String) : Bool :=
  if ((line_obj.index "id").as_str.getD "") == image_ref then true
  else
    match (line_obj.index "repoDigests").as_array with
    | some arr => arr.any (fun digest => (digest.as_str.getD "") == image_ref)
    | none => false

/-- The `for line in img_lines` loop of `Cli::image`: first record matching
`matchesImage` wins; `none` when no record matches. -/
def findImage : List Json → String → Option Json
  | [], _ => none
  | line :: rest, image_ref =>
    if matchesImage line image_ref then some line
    else findImage rest image_ref

/-- Model of `Cli::image`: list images with the configured sub-command, scan
the `images` array for the reference; "no images matched" when the array
exists but nothing matches, "no images found" when it is absent. -/
def Cli.image (parse : String → Except String Json) (cli : Cli)
    (image_ref : String) (res : SpawnResult) : Except String Json :=
  let img_cmd := cli.image_command.render
  let image_output_args := imageArgs cli.config_path img_cmd
  match run_command parse image_output_args res with
  | Except.error e => Except.error e
  | Except.ok image_list =>
    match (image_list.index "images").as_array with
    | some img_lines =>
      match findImage img_lines image_ref with
      | some line_obj => Except.ok line_obj
      | none =>
          Except.error ("no images matched in crictl img "
            ++ fmtArgs image_output_args)
    | none =>
        Except.error ("no images found in crictl img "
          ++ fmtArgs image_output_args)

/-- Argument vector built by `Cli::logs`. -/
def logsArgs (config_path : Option String) (container_id : String) : List String :=
  match config_path with
  | some s => ["-c", s, "logs", container_id]
  | none => ["logs", container_id]

/-- Model of `Cli::logs` (deprecated full-log retrieval): raw text result. -/
def Cli.logs (cli : Cli) (container_id : String) (res : SpawnResult) :
    Except String String :=
  run_command_text (logsArgs cli.config_path container_id) res

/-- Argument vector built by `Cli::tail_logs`; `line_count` models the `u32`
value formatted as `--tail=<n>`. -/
def tailLogsArgs (config_path : Option String) (container_id : String)
    (line_count : Nat) : List String :=
  match config_path with
  | some s => ["-c", s, "logs", "--tail=" ++ toString line_count, container_id]
  | none => ["logs", "--tail=" ++ toString line_count, container_id]

/-- Model of `Cli::tail_logs`: raw text result with a tail limit. -/
def Cli.tail_logs (cli : Cli) (container_id : String) (line_count : Nat)
    (res : SpawnResult) : Except String String :=
  run_command_text (tailLogsArgs cli.config_path container_id line_count) res

/-! ### Helper lemmas about the text pipeline -/

theorem run_text_stderr_invalid (args : List String) (out err : List Nat)
    (st : Int) (h : utf8Decode err = none) :
    run_command_text args (SpawnResult.output out err st)
      = Except.error ("stderr read error - failed to execute crictl "
          ++ fmtArgs args ++ " " ++ utf8ReadErr) := by
  simp [run_command_text, h]

theorem run_text_stderr_nonempty (args : List String) (out err : List Nat)
    (st : Int) (es : String) (hdec : utf8Decode err = some es) (hne : es ≠ "") :
    run_command_text args (SpawnResult.output out err st)
      = Except.error ("stderr not empty - failed to execute crictl "
          ++ fmtArgs args ++ " " ++ es) := by
  have hb : es.isEmpty = false := by
    cases hb : es.isEmpty
    · rfl
    · exact absurd ((String.isEmpty_iff es).mp hb) hne
  simp [run_command_text, hdec, hb]

theorem empty_string_isEmpty : "".isEmpty = true := rfl

theorem run_text_stdout_invalid (args : List String) (out err : List Nat)
    (st : Int) (he : utf8Decode err = some "") (ho : utf8Decode out = none) :
    run_command_text args (SpawnResult.output out err st)
      = Except.error ("stdout error - failed to execute crictl "
          ++ fmtArgs args ++ " " ++ utf8ReadErr) := by
  simp [run_command_text, he, ho, empty_string_isEmpty]

theorem run_text_ok (args : List String) (out err : List Nat) (st : Int)
    (outs : String) (he : utf8Decode err = some "")
    (ho : utf8Decode out = some outs) :
    run_command_text args (SpawnResult.output out err st) = Except.ok outs := by
  simp [run_command_text, he, ho, empty_string_isEmpty]

theorem run_command_of_text_error (parse : String → Except String Json)
    (args : List String) (res : SpawnResult) (e : String)
    (h : run_command_text args res = Except.error e) :
    run_command parse args res = Except.error e := by
  simp [run_command, h]

theorem run_command_parse_error (parse : String → Except String Json)
    (args : List String) (res : SpawnResult) (outs msg : String)
    (ht : run_command_text args res = Except.ok outs)
    (hp : parse outs = Except.error msg) :
    run_command parse args res
      = Except.error ("failed to create output from slice for "
          ++ fmtArgs args ++ " " ++ msg) := by
  simp [run_command, slice_to_value, ht, hp]

theorem run_command_parse_ok (parse : String → Except String Json)
    (args : List String) (res : SpawnResult) (outs : String) (v : Json)
    (ht : run_command_text args res = Except.ok outs)
    (hp : parse outs = Except.ok v) :
    run_command parse args res = Except.ok v := by
  simp [run_command, slice_to_value, ht, hp]

theorem pod_of_run_error (parse : String → Except String Json) (cli : Cli)
    (hostname : String) (res : SpawnResult) (e : String)
    (h : run_command parse (podArgs cli.config_path hostname) res
      = Except.error e) :
    cli.pod parse hostname res = Except.error e := by
  simp [Cli.pod, h]

theorem image_of_run_error (parse : String → Except String Json) (cli : Cli)
    (image_ref : String) (res : SpawnResult) (e : String)
    (h : run_command parse (imageArgs cli.config_path cli.image_command.render)
      res = Except.error e) :
    cli.image parse image_ref res = Except.error e := by
  simp [Cli.image, h]

/-! ### Helper lemmas about the image-matching scan -/

theorem matchesImage_of_id (l : Json) (r : String)
    (h : (l.index "id").as_str.getD "" = r) : matchesImage l r = true := by
  simp [matchesImage, h]

theorem matchesImage_iff (l : Json) (r : String) :
    matchesImage l r = true ↔
      ((l.index "id").as_str.getD "" = r
        ∨ ∃ ds, (l.index "repoDigests").as_array = some ds
            ∧ ∃ d ∈ ds, d.as_str.getD "" = r) := by
  by_cases hid : (l.index "id").as_str.getD "" = r
  · simp [matchesImage, hid]
  · cases harr : (l.index "repoDigests").as_array with
    | none => simp [matchesImage, hid, harr]
    | some ds => simp [matchesImage, hid, harr, List.any_eq_true]

theorem findImage_none_iff (lines : List Json) (r : String) :
    findImage lines r = none ↔ ∀ x ∈ lines, matchesImage x r = false := by
  induction lines with
  | nil => simp [findImage]
  | cons a as ih =>
    by_cases ha : matchesImage a r = true
    · simp [findImage, ha]
    · have ha' : matchesImage a r = false := by
        cases hb : matchesImage a r
        · rfl
        · exact absurd hb ha
      simp [findImage, ha', ih]

theorem findImage_some_spec (lines : List Json) (r : String) (w : Json)
    (h : findImage lines r = some w) :
    ∃ pre post, lines = pre ++ w :: post ∧ matchesImage w r = true
      ∧ ∀ x ∈ pre, matchesImage x r = false := by
  induction lines with
  | nil => simp [findImage] at h
  | cons a as ih =>
    by_cases ha : matchesImage a r = true
    · rw [findImage, if_pos ha] at h
      obtain rfl : a = w := by injection h
      exact ⟨[], as, rfl, ha, by simp⟩
    · rw [findImage, if_neg ha] at h
      obtain ⟨pre, post, heq, hw, hpre⟩ := ih h
      refine ⟨a :: pre, post, by simp [heq], hw, ?_⟩
      intro x hx
      rcases List.mem_cons.mp hx with rfl | hx'
      · cases hb : matchesImage x r
        · rfl
        · exact absurd hb ha
      · exact hpre x hx'

theorem findImage_isSome_of_mem (lines : List Json) (r : String) (l : Json)
    (hl : l ∈ lines) (hm : matchesImage l r = true) :
    ∃ w, findImage lines r = some w := by
  cases hf : findImage lines r with
  | some w => exact ⟨w, rfl⟩
  | none =>
    have := (findImage_none_iff lines r).mp hf l hl
    rw [hm] at this
    exact absurd this (by simp)

theorem image_eq_of_ok (parse : String → Except String Json) (cli : Cli)
    (image_ref : String) (res : SpawnResult) (v : Json)
    (h : run_command parse (imageArgs cli.config_path cli.image_command.render)
      res = Except.ok v) :
    cli.image parse image_ref res =
      (match (v.index "images").as_array with
      | some img_lines =>
        (match findImage img_lines image_ref with
        | some line_obj => Except.ok line_obj
        | none =>
            Except.error ("no images matched in crictl img "
              ++ fmtArgs (imageArgs cli.config_path cli.image_command.render)))
      | none =>
          Except.error ("no images found in crictl img "
            ++ fmtArgs (imageArgs cli.config_path cli.image_command.render))) := by
  simp [Cli.image, h]

/-! ### Claim theorems -/

/-- C3: for every operation the result depends only on the captured stdout
and stderr bytes, never on the child's exit status — two invocations with
identical stdout and stderr but different exit statuses yield identical
results. -/
theorem C3_exit_status_ignored (parse : String → Except String Json)
    (cli : Cli) (args : List String)
    (hostname pod_id container_id image_ref : String) (n : Nat)
    (out err : List Nat) (s1 s2 : Int) :
    run_command_text args (SpawnResult.output out err s1)
      = run_command_text args (SpawnResult.output out err s2)
    ∧ run_command parse args (SpawnResult.output out err s1)
      = run_command parse args (SpawnResult.output out err s2)
    ∧ cli.pod parse hostname (SpawnResult.output out err s1)
      = cli.pod parse hostname (SpawnResult.output out err s2)
    ∧ cli.inspect_pod parse pod_id (SpawnResult.output out err s1)
      = cli.inspect_pod parse pod_id (SpawnResult.output out err s2)
    ∧ cli.pod_containers parse pod_id (SpawnResult.output out err s1)
      = cli.pod_containers parse pod_id (SpawnResult.output out err s2)
    ∧ cli.inspect_container parse container_id (SpawnResult.output out err s1)
      = cli.inspect_container parse container_id (SpawnResult.output out err s2)
    ∧ cli.image parse image_ref (SpawnResult.output out err s1)
      = cli.image parse image_ref (SpawnResult.output out err s2)
    ∧ cli.logs container_id (SpawnResult.output out err s1)
      = cli.logs container_id (SpawnResult.output out err s2)
    ∧ cli.tail_logs container_id n (SpawnResult.output out err s1)
      = cli.tail_logs container_id n (SpawnResult.output out err s2) :=
  ⟨rfl, rfl, rfl, rfl, rfl, rfl, rfl, rfl, rfl⟩

/-- C6: for each of the operations, setting the configuration-file path
prepends exactly the two tokens `-c` and the path before the otherwise
identical token list, whose first token is the operation name. -/
theorem C6_config_path_flag (s hostname pod_id container_id img_cmd : String)
    (n : Nat) :
    podArgs (some s) hostname = "-c" :: s :: podArgs none hostname
    ∧ (podArgs none hostname).head? = some "pods"
    ∧ inspectPodArgs (some s) pod_id = "-c" :: s :: inspectPodArgs none pod_id
    ∧ (inspectPodArgs none pod_id).head? = some "inspectp"
    ∧ podContainersArgs (some s) pod_id
        = "-c" :: s :: podContainersArgs none pod_id
    ∧ (podContainersArgs none pod_id).head? = some "ps"
    ∧ inspectContainerArgs (some s) container_id
        = "-c" :: s :: inspectContainerArgs none container_id
    ∧ (inspectContainerArgs none container_id).head? = some "inspect"
    ∧ imageArgs (some s) img_cmd = "-c" :: s :: imageArgs none img_cmd
    ∧ (imageArgs none img_cmd).head? = some img_cmd
    ∧ logsArgs (some s) container_id = "-c" :: s :: logsArgs none container_id
    ∧ (logsArgs none container_id).head? = some "logs"
    ∧ tailLogsArgs (some s) container_id n
        = "-c" :: s :: tailLogsArgs none container_id n
    ∧ (tailLogsArgs none container_id n).head? = some "logs" :=
  ⟨rfl, rfl, rfl, rfl, rfl, rfl, rfl, rfl, rfl, rfl, rfl, rfl, rfl, rfl⟩

/-- C7: appending a segment to the search path leaves the existing path as
an unchanged leading part and appends the segment, inserting exactly one
`:` separator when the segment does not already start with one, and no
additional separator when it does; nothing else in the configuration
changes. -/
theorem C7_append_bin_path_spec (cli : Cli) (path : String) :
    (startsWithChar path ':' = false →
      (cli.append_bin_path path).bin_path = cli.bin_path ++ (":" ++ path))
    ∧ (startsWithChar path ':' = true →
      (cli.append_bin_path path).bin_path = cli.bin_path ++ path)
    ∧ (cli.append_bin_path path).config_path = cli.config_path
    ∧ (cli.append_bin_path path).image_command = cli.image_command := by
  refine ⟨?_, ?_, rfl, rfl⟩ <;> intro h <;> simp [Cli.append_bin_path, h]

/-- Witness for C7 at the inputs of the repository's own
`test_append_bin_path`, covering both separator cases. -/
theorem C7_append_bin_path_spec_witness :
    (Cli.mkDefault.append_bin_path "/my/path").bin_path
      = "/bin:/sbin:/usr/bin:/usr/sbin:/usr/local/bin:/home/kubernetes/bin"
        ++ (":" ++ "/my/path")
    ∧ (Cli.mkDefault.append_bin_path ":/my/path2").bin_path
      = "/bin:/sbin:/usr/bin:/usr/sbin:/usr/local/bin:/home/kubernetes/bin"
        ++ ":/my/path2" :=
  ⟨(C7_append_bin_path_spec Cli.mkDefault "/my/path").1 rfl,
   (C7_append_bin_path_spec Cli.mkDefault ":/my/path2").2.1 rfl⟩

/-- C8: parsing an `ImageCommand` succeeds exactly when the lowercased
input is `"img"` or `"images"` (yielding the matching variant); any other
input fails with the bare unit error; rendering a variant yields its
lowercase name, which parses back to the same variant. -/
theorem C8_image_command_parse (s : String) (c : ImageCommand) :
    (ImageCommand.from_str s = Except.ok ImageCommand.img ↔ lowerStr s = "img")
    ∧ (ImageCommand.from_str s = Except.ok ImageCommand.images
        ↔ lowerStr s = "images")
    ∧ (ImageCommand.from_str s = Except.error ()
        ↔ (lowerStr s ≠ "img" ∧ lowerStr s ≠ "images"))
    ∧ ImageCommand.render ImageCommand.img = "img"
    ∧ ImageCommand.render ImageCommand.images = "images"
    ∧ ImageCommand.from_str (ImageCommand.render c) = Except.ok c := by
  refine ⟨?_, ?_, ?_, rfl, rfl, ?_⟩
  · by_cases h1 : lowerStr s = "img"
    · simp [ImageCommand.from_str, h1]
    · by_cases h2 : lowerStr s = "images" <;>
        simp [ImageCommand.from_str, h1, h2]
  · by_cases h1 : lowerStr s = "img"
    · simp [ImageCommand.from_str, h1]
    · by_cases h2 : lowerStr s = "images" <;>
        simp [ImageCommand.from_str, h1, h2]
  · by_cases h1 : lowerStr s = "img"
    · simp [ImageCommand.from_str, h1]
    · by_cases h2 : lowerStr s = "images" <;>
        simp [ImageCommand.from_str, h1, h2]
  · cases c <;> rfl

/-- A trivial stand-in for the external JSON parser, used by concrete
witnesses whose scenario never reaches parsing or ignores the result. -/
def parseNull : String → Except String Json :=
  fun _ => Except.ok Json.null

/-- A stand-in external parser that always reports the diagnostic the
repository's mock fixtures produce on empty input. -/
def parseEof : String → Except String Json :=
  fun _ => Except.error "EOF while parsing a value at line 2 column 0"

/-- An invocation outcome with empty streams (the concrete witnesses below
substitute their own parser for the decoding stage). -/
def emptyOutput : SpawnResult := SpawnResult.output [] [] 0

/-- C1: for every operation, an invocation whose captured standard-error
text is non-empty fails, and the error is exactly
"stderr not empty - failed to execute crictl <args> <stderr>", regardless
of the captured standard-output. -/
theorem C1_nonempty_stderr_fails (parse : String → Except String Json)
    (cli : Cli) (hostname pod_id container_id image_ref : String) (n : Nat)
    (out err : List Nat) (st : Int) (es : String)
    (hdec : utf8Decode err = some es) (hne : es ≠ "") :
    cli.pod parse hostname (SpawnResult.output out err st)
      = Except.error ("stderr not empty - failed to execute crictl "
          ++ fmtArgs (podArgs cli.config_path hostname) ++ " " ++ es)
    ∧ cli.inspect_pod parse pod_id (SpawnResult.output out err st)
      = Except.error ("stderr not empty - failed to execute crictl "
          ++ fmtArgs (inspectPodArgs cli.config_path pod_id) ++ " " ++ es)
    ∧ cli.pod_containers parse pod_id (SpawnResult.output out err st)
      = Except.error ("stderr not empty - failed to execute crictl "
          ++ fmtArgs (podContainersArgs cli.config_path pod_id) ++ " " ++ es)
    ∧ cli.inspect_container parse container_id (SpawnResult.output out err st)
      = Except.error ("stderr not empty - failed to execute crictl "
          ++ fmtArgs (inspectContainerArgs cli.config_path container_id)
          ++ " " ++ es)
    ∧ cli.image parse image_ref (SpawnResult.output out err st)
      = Except.error ("stderr not empty - failed to execute crictl "
          ++ fmtArgs (imageArgs cli.config_path cli.image_command.render)
          ++ " " ++ es)
    ∧ cli.logs container_id (SpawnResult.output out err st)
      = Except.error ("stderr not empty - failed to execute crictl "
          ++ fmtArgs (logsArgs cli.config_path container_id) ++ " " ++ es)
    ∧ cli.tail_logs container_id n (SpawnResult.output out err st)
      = Except.error ("stderr not empty - failed to execute crictl "
          ++ fmtArgs (tailLogsArgs cli.config_path container_id n)
          ++ " " ++ es) := by
  refine ⟨?_, ?_, ?_, ?_, ?_, ?_, ?_⟩
  · exact pod_of_run_error _ _ _ _ _ (run_command_of_text_error _ _ _ _
      (run_text_stderr_nonempty _ _ _ _ _ hdec hne))
  · exact run_command_of_text_error _ _ _ _
      (run_text_stderr_nonempty _ _ _ _ _ hdec hne)
  · exact run_command_of_text_error _ _ _ _
      (run_text_stderr_nonempty _ _ _ _ _ hdec hne)
  · exact run_command_of_text_error _ _ _ _
      (run_text_stderr_nonempty _ _ _ _ _ hdec hne)
  · exact image_of_run_error _ _ _ _ _ (run_command_of_text_error _ _ _ _
      (run_text_stderr_nonempty _ _ _ _ _ hdec hne))
  · exact run_text_stderr_nonempty _ _ _ _ _ hdec hne
  · exact run_text_stderr_nonempty _ _ _ _ _ hdec hne

/-- Witness for C1: the mixed-errors fixture scenario — stderr holds the
bytes of `"E\n"`, stdout is empty — makes pod lookup fail with the exact
"stderr not empty" message. -/
theorem C1_nonempty_stderr_fails_witness :
    Cli.mkDefault.pod parseNull "tests" (SpawnResult.output [] [69, 10] 0)
      = Except.error ("stderr not empty - failed to execute crictl "
          ++ fmtArgs (podArgs none "tests") ++ " " ++ "E\n") :=
  (C1_nonempty_stderr_fails parseNull Cli.mkDefault "tests" "p" "c" "r" 0
    [] [69, 10] 0 "E\n" rfl (by decide)).1

/-- C4: for every JSON-decoding operation, when standard error is empty but
the external parser rejects the stdout text with message `msg`, the
operation fails with exactly
"failed to create output from slice for <args> <msg>". -/
theorem C4_parse_failure_message (parse : String → Except String Json)
    (cli : Cli) (hostname pod_id container_id image_ref : String)
    (out err : List Nat) (st : Int) (outs msg : String)
    (he : utf8Decode err = some "") (ho : utf8Decode out = some outs)
    (hp : parse outs = Except.error msg) :
    cli.pod parse hostname (SpawnResult.output out err st)
      = Except.error ("failed to create output from slice for "
          ++ fmtArgs (podArgs cli.config_path hostname) ++ " " ++ msg)
    ∧ cli.inspect_pod parse pod_id (SpawnResult.output out err st)
      = Except.error ("failed to create output from slice for "
          ++ fmtArgs (inspectPodArgs cli.config_path pod_id) ++ " " ++ msg)
    ∧ cli.pod_containers parse pod_id (SpawnResult.output out err st)
      = Except.error ("failed to create output from slice for "
          ++ fmtArgs (podContainersArgs cli.config_path pod_id) ++ " " ++ msg)
    ∧ cli.inspect_container parse container_id (SpawnResult.output out err st)
      = Except.error ("failed to create output from slice for "
          ++ fmtArgs (inspectContainerArgs cli.config_path container_id)
          ++ " " ++ msg)
    ∧ cli.image parse image_ref (SpawnResult.output out err st)
      = Except.error ("failed to create output from slice for "
          ++ fmtArgs (imageArgs cli.config_path cli.image_command.render)
          ++ " " ++ msg) := by
  refine ⟨?_, ?_, ?_, ?_, ?_⟩
  · exact pod_of_run_error _ _ _ _ _
      (run_command_parse_error _ _ _ _ _ (run_text_ok _ _ _ _ _ he ho) hp)
  · exact run_command_parse_error _ _ _ _ _ (run_text_ok _ _ _ _ _ he ho) hp
  · exact run_command_parse_error _ _ _ _ _ (run_text_ok _ _ _ _ _ he ho) hp
  · exact run_command_parse_error _ _ _ _ _ (run_text_ok _ _ _ _ _ he ho) hp
  · exact image_of_run_error _ _ _ _ _
      (run_command_parse_error _ _ _ _ _ (run_text_ok _ _ _ _ _ he ho) hp)

/-- Witness for C4: the only-errors fixture scenario — both streams empty,
parser reporting the EOF diagnostic — makes pod lookup fail with the exact
decode-failure message. -/
theorem C4_parse_failure_message_witness :
    Cli.mkDefault.pod parseEof "tests" emptyOutput
      = Except.error ("failed to create output from slice for "
          ++ fmtArgs (podArgs none "tests")
          ++ " " ++ "EOF while parsing a value at line 2 column 0") :=
  (C4_parse_failure_message parseEof Cli.mkDefault "tests" "p" "c" "r"
    [] [] 0 "" "EOF while parsing a value at line 2 column 0"
    rfl rfl rfl).1

/-- C5: once the pod list has decoded to `v`, pod lookup returns element 0
of the `items` array when it exists, and fails with exactly
"failed to create pod at index 0" when `items` is the empty array or is
absent or not an array at all. -/
theorem C5_pod_index_zero (parse : String → Except String Json) (cli : Cli)
    (hostname : String) (res : SpawnResult) (v : Json)
    (h : run_command parse (podArgs cli.config_path hostname) res
      = Except.ok v) :
    (∀ p, (v.index "items").get 0 = some p →
      cli.pod parse hostname res = Except.ok p)
    ∧ ((v.index "items") = Json.arr [] →
      cli.pod parse hostname res
        = Except.error "failed to create pod at index 0")
    ∧ ((∀ xs, (v.index "items") ≠ Json.arr xs) →
      cli.pod parse hostname res
        = Except.error "failed to create pod at index 0") := by
  refine ⟨?_, ?_, ?_⟩
  · intro p hp
    simp [Cli.pod, h, hp]
  · intro hempty
    simp [Cli.pod, h, hempty, Json.get]
  · intro hnot
    have hget : (v.index "items").get 0 = none := by
      cases hj : v.index "items"
      case arr xs => exact absurd hj (hnot xs)
      all_goals rfl
    simp [Cli.pod, h, hget]

/-- Witness for C5: a one-item pod list yields its element 0. -/
theorem C5_pod_index_zero_witness :
    Cli.mkDefault.pod
        (fun _ => Except.ok (Json.obj [("items", Json.arr [Json.str "pod0"])]))
        "tests" emptyOutput
      = Except.ok (Json.str "pod0") :=
  (C5_pod_index_zero
    (fun _ => Except.ok (Json.obj [("items", Json.arr [Json.str "pod0"])]))
    Cli.mkDefault "tests" emptyOutput
    (Json.obj [("items", Json.arr [Json.str "pod0"])]) rfl).1
    (Json.str "pod0") rfl

/-- C10: for every operation, non-UTF-8 stderr bytes fail with the
"stderr read error" message embedding the argument list (whatever stdout
holds — the stdout check is only reached after the stderr check passes),
and valid-but-empty stderr with non-UTF-8 stdout bytes fails with the
"stdout error" message embedding the argument list. -/
theorem C10_stream_decode_errors (parse : String → Except String Json)
    (cli : Cli) (hostname pod_id container_id image_ref : String) (n : Nat)
    (out err : List Nat) (st : Int) :
    (utf8Decode err = none →
      cli.pod parse hostname (SpawnResult.output out err st)
        = Except.error ("stderr read error - failed to execute crictl "
            ++ fmtArgs (podArgs cli.config_path hostname) ++ " " ++ utf8ReadErr)
      ∧ cli.inspect_pod parse pod_id (SpawnResult.output out err st)
        = Except.error ("stderr read error - failed to execute crictl "
            ++ fmtArgs (inspectPodArgs cli.config_path pod_id) ++ " "
            ++ utf8ReadErr)
      ∧ cli.pod_containers parse pod_id (SpawnResult.output out err st)
        = Except.error ("stderr read error - failed to execute crictl "
            ++ fmtArgs (podContainersArgs cli.config_path pod_id) ++ " "
            ++ utf8ReadErr)
      ∧ cli.inspect_container parse container_id (SpawnResult.output out err st)
        = Except.error ("stderr read error - failed to execute crictl "
            ++ fmtArgs (inspectContainerArgs cli.config_path container_id)
            ++ " " ++ utf8ReadErr)
      ∧ cli.image parse image_ref (SpawnResult.output out err st)
        = Except.error ("stderr read error - failed to execute crictl "
            ++ fmtArgs (imageArgs cli.config_path cli.image_command.render)
            ++ " " ++ utf8ReadErr)
      ∧ cli.logs container_id (SpawnResult.output out err st)
        = Except.error ("stderr read error - failed to execute crictl "
            ++ fmtArgs (logsArgs cli.config_path container_id) ++ " "
            ++ utf8ReadErr)
      ∧ cli.tail_logs container_id n (SpawnResult.output out err st)
        = Except.error ("stderr read error - failed to execute crictl "
            ++ fmtArgs (tailLogsArgs cli.config_path container_id n) ++ " "
            ++ utf8ReadErr))
    ∧ (utf8Decode err = some "" → utf8Decode out = none →
      cli.pod parse hostname (SpawnResult.output out err st)
        = Except.error ("stdout error - failed to execute crictl "
            ++ fmtArgs (podArgs cli.config_path hostname) ++ " " ++ utf8ReadErr)
      ∧ cli.inspect_pod parse pod_id (SpawnResult.output out err st)
        = Except.error ("stdout error - failed to execute crictl "
            ++ fmtArgs (inspectPodArgs cli.config_path pod_id) ++ " "
            ++ utf8ReadErr)
      ∧ cli.pod_containers parse pod_id (SpawnResult.output out err st)
        = Except.error ("stdout error - failed to execute crictl "
            ++ fmtArgs (podContainersArgs cli.config_path pod_id) ++ " "
            ++ utf8ReadErr)
      ∧ cli.inspect_container parse container_id (SpawnResult.output out err st)
        = Except.error ("stdout error - failed to execute crictl "
            ++ fmtArgs (inspectContainerArgs cli.config_path container_id)
            ++ " " ++ utf8ReadErr)
      ∧ cli.image parse image_ref (SpawnResult.output out err st)
        = Except.error ("stdout error - failed to execute crictl "
            ++ fmtArgs (imageArgs cli.config_path cli.image_command.render)
            ++ " " ++ utf8ReadErr)
      ∧ cli.logs container_id (SpawnResult.output out err st)
        = Except.error ("stdout error - failed to execute crictl "
            ++ fmtArgs (logsArgs cli.config_path container_id) ++ " "
            ++ utf8ReadErr)
      ∧ cli.tail_logs container_id n (SpawnResult.output out err st)
        = Except.error ("stdout error - failed to execute crictl "
            ++ fmtArgs (tailLogsArgs cli.config_path container_id n) ++ " "
            ++ utf8ReadErr)) := by
  constructor
  · intro hd
    refine ⟨?_, ?_, ?_, ?_, ?_, ?_, ?_⟩
    · exact pod_of_run_error _ _ _ _ _ (run_command_of_text_error _ _ _ _
        (run_text_stderr_invalid _ _ _ _ hd))
    · exact run_command_of_text_error _ _ _ _
        (run_text_stderr_invalid _ _ _ _ hd)
    · exact run_command_of_text_error _ _ _ _
        (run_text_stderr_invalid _ _ _ _ hd)
    · exact run_command_of_text_error _ _ _ _
        (run_text_stderr_invalid _ _ _ _ hd)
    · exact image_of_run_error _ _ _ _ _ (run_command_of_text_error _ _ _ _
        (run_text_stderr_invalid _ _ _ _ hd))
    · exact run_text_stderr_invalid _ _ _ _ hd
    · exact run_text_stderr_invalid _ _ _ _ hd
  · intro he ho
    refine ⟨?_, ?_, ?_, ?_, ?_, ?_, ?_⟩
    · exact pod_of_run_error _ _ _ _ _ (run_command_of_text_error _ _ _ _
        (run_text_stdout_invalid _ _ _ _ he ho))
    · exact run_command_of_text_error _ _ _ _
        (run_text_stdout_invalid _ _ _ _ he ho)
    · exact run_command_of_text_error _ _ _ _
        (run_text_stdout_invalid _ _ _ _ he ho)
    · exact run_command_of_text_error _ _ _ _
        (run_text_stdout_invalid _ _ _ _ he ho)
    · exact image_of_run_error _ _ _ _ _ (run_command_of_text_error _ _ _ _
        (run_text_stdout_invalid _ _ _ _ he ho))
    · exact run_text_stdout_invalid _ _ _ _ he ho
    · exact run_text_stdout_invalid _ _ _ _ he ho

/-- Witness for C10: the byte `0xFF` is invalid UTF-8; on stderr it yields
the "stderr read error" message even though stdout is also invalid, and on
stdout (with empty stderr) the "stdout error" message. -/
theorem C10_stream_decode_errors_witness :
    Cli.mkDefault.pod parseNull "tests" (SpawnResult.output [255] [255] 0)
      = Except.error ("stderr read error - failed to execute crictl "
          ++ fmtArgs (podArgs none "tests") ++ " " ++ utf8ReadErr)
    ∧ Cli.mkDefault.logs "c" (SpawnResult.output [255] [] 0)
      = Except.error ("stdout error - failed to execute crictl "
          ++ fmtArgs (logsArgs none "c") ++ " " ++ utf8ReadErr) :=
  ⟨((C10_stream_decode_errors parseNull Cli.mkDefault "tests" "p" "c" "r" 0
      [255] [255] 0).1 rfl).1,
   (((C10_stream_decode_errors parseNull Cli.mkDefault "tests" "p" "c" "r" 0
      [255] [] 0).2) rfl rfl).2.2.2.2.2.1⟩

/-- C2: once the image list has decoded to `v`, image lookup scans the
`images` array in order, matching a record when its `id` equals the
reference exactly or — only when the id comparison fails — when some
`repoDigests` entry equals it exactly, returns the first matching record,
fails with "no images matched" (embedding the argument list) when the array
exists but nothing matches, and with "no images found" when it is absent. -/
theorem C2_image_lookup (parse : String → Except String Json) (cli : Cli)
    (image_ref : String) (res : SpawnResult) (v : Json)
    (h : run_command parse (imageArgs cli.config_path cli.image_command.render)
      res = Except.ok v) :
    (∀ lines w, (v.index "images").as_array = some lines →
      findImage lines image_ref = some w →
      cli.image parse image_ref res = Except.ok w)
    ∧ (∀ lines, (v.index "images").as_array = some lines →
      findImage lines image_ref = none →
      cli.image parse image_ref res
        = Except.error ("no images matched in crictl img "
            ++ fmtArgs (imageArgs cli.config_path cli.image_command.render)))
    ∧ ((v.index "images").as_array = none →
      cli.image parse image_ref res
        = Except.error ("no images found in crictl img "
            ++ fmtArgs (imageArgs cli.config_path cli.image_command.render)))
    ∧ (∀ lines w, findImage lines image_ref = some w →
      ∃ pre post, lines = pre ++ w :: post ∧ matchesImage w image_ref = true
        ∧ ∀ x ∈ pre, matchesImage x image_ref = false)
    ∧ (∀ lines, findImage lines image_ref = none
        ↔ ∀ x ∈ lines, matchesImage x image_ref = false)
    ∧ (∀ l, matchesImage l image_ref = true ↔
        ((l.index "id").as_str.getD "" = image_ref
          ∨ ∃ ds, (l.index "repoDigests").as_array = some ds
              ∧ ∃ d ∈ ds, d.as_str.getD "" = image_ref))
    ∧ (∀ l, (l.index "id").as_str.getD "" = image_ref →
        matchesImage l image_ref = true) := by
  refine ⟨?_, ?_, ?_, ?_, ?_, ?_, ?_⟩
  · intro lines w harr hf
    simp [image_eq_of_ok parse cli image_ref res v h, harr, hf]
  · intro lines harr hf
    simp [image_eq_of_ok parse cli image_ref res v h, harr, hf]
  · intro harr
    simp [image_eq_of_ok parse cli image_ref res v h, harr]
  · exact fun lines w => findImage_some_spec lines image_ref w
  · exact fun lines => findImage_none_iff lines image_ref
  · exact fun l => matchesImage_iff l image_ref
  · exact fun l => matchesImage_of_id l image_ref

/-- Image record fixture matched by its `id`. -/
def recDirect : Json :=
  Json.obj [("id", Json.str "sha256:aaa"), ("size", Json.str "1")]

/-- Image record fixture matched only through `repoDigests`. -/
def recDigest : Json :=
  Json.obj [("id", Json.str "sha256:bbb"),
    ("repoDigests", Json.arr [Json.str "repo@sha256:ddd"])]

/-- Decoded image-list fixture holding both records. -/
def imagesFixture : Json :=
  Json.obj [("images", Json.arr [recDirect, recDigest])]

/-- External-parser stand-in that decodes to `imagesFixture`. -/
def parseImages : String → Except String Json :=
  fun _ => Except.ok imagesFixture

/-- Witness for C2: the second record is found through its `repoDigests`
entry after the first record fails both checks. -/
theorem C2_image_lookup_witness :
    Cli.mkDefault.image parseImages "repo@sha256:ddd" emptyOutput
      = Except.ok recDigest :=
  (C2_image_lookup parseImages Cli.mkDefault "repo@sha256:ddd" emptyOutput
    imagesFixture rfl).1 [recDirect, recDigest] recDigest rfl rfl

/-- Image record whose `id` is the string `""`. -/
def recEmptyId : Json := Json.obj [("id", Json.str "")]

/-- Image record whose `id` is a number, i.e. not a JSON string. -/
def recNumId : Json := Json.obj [("id", Json.num 42)]

/-- Image list putting the string-`""`-id record before the only record
that lacks a string id. -/
def imagesNineFixture : Json :=
  Json.obj [("images", Json.arr [recEmptyId, recNumId])]

/-- External-parser stand-in decoding to `imagesNineFixture`. -/
def parseNine : String → Except String Json :=
  fun _ => Except.ok imagesNineFixture

/-- C9 as stated is false: in the list `[{id: ""}, {id: 42}]` the only
record lacking a string `id` is the second, yet lookup with the empty
reference returns the first — a record that has a string `id` and no
`repoDigests` at all — so image lookup does not return "the first record
lacking a string `id` field (or containing a non-string `repoDigests`
entry)". -/
theorem C9_counterexample :
    Cli.mkDefault.image parseNine "" emptyOutput = Except.ok recEmptyId
    ∧ (recEmptyId.index "id").as_str = some ""
    ∧ (recEmptyId.index "repoDigests").as_array = none
    ∧ (recNumId.index "id").as_str = none
    ∧ recEmptyId ≠ recNumId := by
  refine ⟨rfl, rfl, rfl, rfl, ?_⟩
  intro hcontra
  have hids := congrArg (fun j => (Json.index j "id").as_str) hcontra
  simp [recEmptyId, recNumId, Json.index, Json.as_str] at hids

/-- C9 (amended): a record whose `id` field is absent or not a JSON string
is compared as though its id were the empty string, and non-string
`repoDigests` entries are likewise compared as the empty string;
consequently, for the empty reference string `""`, whenever the decoded
`images` array contains a record lacking a string `id` (or containing a
non-string `repoDigests` entry), image lookup succeeds, returning the first
record whose defaulted id or defaulted `repoDigests` entry equals `""` —
which need not itself be a record lacking a string id. -/
theorem C9_defaulted_empty_matching (parse : String → Except String Json)
    (cli : Cli) (res : SpawnResult) (v : Json) (lines : List Json) (l : Json)
    (h : run_command parse (imageArgs cli.config_path cli.image_command.render)
      res = Except.ok v)
    (harr : (v.index "images").as_array = some lines)
    (hmem : l ∈ lines)
    (hl : (l.index "id").as_str = none
        ∨ ∃ ds d, (l.index "repoDigests").as_array = some ds ∧ d ∈ ds
            ∧ d.as_str = none) :
    (∀ j : Json, (j.index "id").as_str = none → matchesImage j "" = true)
    ∧ (∀ (j d : Json) (ds : List Json),
        (j.index "repoDigests").as_array = some ds → d ∈ ds →
        d.as_str = none → matchesImage j "" = true)
    ∧ ∃ w pre post, cli.image parse "" res = Except.ok w
        ∧ matchesImage w "" = true
        ∧ lines = pre ++ w :: post
        ∧ ∀ x ∈ pre, matchesImage x "" = false := by
  have hida : ∀ j : Json, (j.index "id").as_str = none →
      matchesImage j "" = true := by
    intro j hj
    exact matchesImage_of_id j "" (by simp [hj])
  have hdig : ∀ (j d : Json) (ds : List Json),
      (j.index "repoDigests").as_array = some ds → d ∈ ds →
      d.as_str = none → matchesImage j "" = true := by
    intro j d ds hds hd hnone
    rw [matchesImage_iff]
    right
    exact ⟨ds, hds, d, hd, by simp [hnone]⟩
  refine ⟨hida, hdig, ?_⟩
  have hmatch : matchesImage l "" = true := by
    rcases hl with hid | ⟨ds, d, hds, hd, hn⟩
    · exact hida l hid
    · exact hdig l d ds hds hd hn
  obtain ⟨w, hw⟩ := findImage_isSome_of_mem lines "" l hmem hmatch
  obtain ⟨pre, post, heq, hwm, hpre⟩ := findImage_some_spec lines "" w hw
  refine ⟨w, pre, post, ?_, hwm, heq, hpre⟩
  simp [image_eq_of_ok parse cli "" res v h, harr, hw]

/-- Image list holding only the record lacking a string id. -/
def imagesNumOnlyFixture : Json := Json.obj [("images", Json.arr [recNumId])]

/-- External-parser stand-in decoding to `imagesNumOnlyFixture`. -/
def parseNumOnly : String → Except String Json :=
  fun _ => Except.ok imagesNumOnlyFixture

/-- Witness for the amended C9: with a single record lacking a string id,
lookup with the empty reference succeeds and returns it first. -/
theorem C9_defaulted_empty_matching_witness :
    ∃ w pre post,
      Cli.mkDefault.image parseNumOnly "" emptyOutput = Except.ok w
      ∧ matchesImage w "" = true
      ∧ [recNumId] = pre ++ w :: post
      ∧ ∀ x ∈ pre, matchesImage x "" = false :=
  (C9_defaulted_empty_matching parseNumOnly Cli.mkDefault emptyOutput
    imagesNumOnlyFixture [recNumId] recNumId rfl rfl (by simp)
    (Or.inl rfl)).2.2

/-- Witness for C8 at the inputs of the repository's own
`test_image_cmd_from_str`. -/
theorem C8_image_command_parse_witness :
    ImageCommand.from_str "IMAGES" = Except.ok ImageCommand.images
    ∧ ImageCommand.from_str "imG" = Except.ok ImageCommand.img
    ∧ ImageCommand.from_str "ADSF" = Except.error () :=
  ⟨(C8_image_command_parse "IMAGES" ImageCommand.img).2.1.mpr rfl,
   (C8_image_command_parse "imG" ImageCommand.img).1.mpr rfl,
   (C8_image_command_parse "ADSF" ImageCommand.img).2.2.1.mpr
     (by refine ⟨?_, ?_⟩ <;> decide)⟩

end LibCrio
